import Mathlib

/-!
Verification of the rescue-robot vision pipeline: a shallow embedding of the
serial wire protocol (`src/vision_serial.py`), the target-prioritization engine
(`src/vision_core.py`), and the color-segmentation error handling
(`src/color_detector.py`), together with proofs and refutations of the
specified behavioral properties.
-/

namespace RescueVision

/-! ## Serial wire protocol (`vision_serial.py`) -/

/-- `VisionSerial.color_to_id`: the ball-color → class-id map
(`{'red': 0, 'blue': 1, 'yellow': 2, 'black': 3}`).  An unknown color makes
`send_ball_data` log an error and send nothing, modelled as `none`. -/
def color_to_id : String → Option Nat
  | "red" => some 0
  | "blue" => some 1
  | "yellow" => some 2
  | "black" => some 3
  | _ => none

/-- `dx = max(-32768, min(dx, 32767))` — saturation to the signed 16-bit range. -/
def clampI16 (v : Int) : Int :=
  max (-32768) (min v 32767)

/-- `distance = max(0, min(distance, 65535))` — saturation to the unsigned
16-bit range. -/
def clampU16 (v : Int) : Int :=
  max 0 (min v 65535)

/-- `v.to_bytes(2, byteorder='little', signed=True)` for `v` in the signed
16-bit range: the two's-complement representation `v mod 2^16`, low byte
first. -/
def toLeI16 (v : Int) : List Nat :=
  [((v % 65536).toNat) % 256, ((v % 65536).toNat) / 256]

/-- `v.to_bytes(2, byteorder='little', signed=False)` for `v` in the unsigned
16-bit range, low byte first. -/
def toLeU16 (v : Int) : List Nat :=
  [v.toNat % 256, v.toNat / 256]

/-- The byte frame built and written by `VisionSerial.send_ball_data`
(`vision_serial.py` lines 186–213): start `0xAA`, clamped `dx` and `dy` as
little-endian signed 16-bit, the class id, a reserved `0x00` byte, the clamped
distance as little-endian unsigned 16-bit, end `0xBB`.  An invalid color is
rejected before any frame is built (`none`). -/
def send_ball_data_packet (dx dy : Int) (ball_color : String) (distance : Int) :
    Option (List Nat) :=
  match color_to_id ball_color with
  | none => none
  | some ball_id =>
    let dx := clampI16 dx
    let dy := clampI16 dy
    let distance := clampU16 distance
    some ([0xAA] ++ toLeI16 dx ++ toLeI16 dy ++ [ball_id, 0x00]
      ++ toLeU16 distance ++ [0xBB])

/-- The target-report frame as the specification describes it (refinement
comparison only; this definition follows the spec's words, not the source):
`[0xAA, dx_le16, dy_le16, classId, distance_le16, checksum, 0xBB]` with
`checksum = sum(payload bytes) mod 256`. -/
def encodeTarget_spec (dx dy : Int) (ball_color : String) (distance : Int) :
    Option (List Nat) :=
  match color_to_id ball_color with
  | none => none
  | some ball_id =>
    let payload := toLeI16 (clampI16 dx) ++ toLeI16 (clampI16 dy)
      ++ [ball_id] ++ toLeU16 (clampU16 distance)
    some ([0xAA] ++ payload ++ [payload.sum % 256] ++ [0xBB])

/-- `VisionSerial.receive_data`'s buffer-parsing logic (`vision_serial.py`
lines 387–407): require at least 6 bytes, start byte `0xAA` at index 0 and end
byte `0xBB` at the last index; the command type is byte 1, the parameters are
`data[2:-2]`, the stored checksum is `data[-2]`, and the computed checksum is
`sum(data[1:-2]) & 0xFF`.  Any framing or checksum failure yields `none`; the
surrounding Python wraps everything in `try/except` returning `None`, so the
function is total. -/
def receive_decode (data : List Nat) : Option (Nat × List Nat) :=
  if 6 ≤ data.length ∧ data.head? = some 0xAA ∧ data.getLast? = some 0xBB then
    if ((data.drop 1).take (data.length - 3)).sum % 256 = data.getD (data.length - 2) 0 then
      some (data.getD 1 0, (data.drop 2).take (data.length - 4))
    else none
  else none

/-- The 5-byte grasp command frame built by `VisionSerial.send_grab_command`:
`[0xAA, 0x01, flag, (0x01 + flag) & 0xFF, 0xBB]` with `flag = 1` for grab and
`0` for release. -/
def send_grab_command_frame (grab : Bool) : List Nat :=
  let flag := if grab then 1 else 0
  [0xAA, 0x01, flag, (0x01 + flag) % 256, 0xBB]

/-- The 5-byte place command frame built by `VisionSerial.send_place_command`:
`[0xAA, 0x02, pos, (0x02 + pos) & 0xFF, 0xBB]` where `pos` defaults to 0.
Python's `bytes([...])` raises on a value outside `0..255` and the surrounding
`except` then reports failure without writing, modelled as `none`. -/
def send_place_command_frame (position : Option Int) : Option (List Nat) :=
  if 0 ≤ position.getD 0 ∧ position.getD 0 ≤ 255 then
    some [0xAA, 0x02, (position.getD 0).toNat,
      (0x02 + (position.getD 0).toNat) % 256, 0xBB]
  else none

/-- The 5-byte rotate command frame built by `VisionSerial.send_rotation`:
the speed percentage is clamped to `[-100, 100]`, mapped linearly onto
`[0, 200]` with 100 as stop, and framed as
`[0xAA, 0x03, mapped, (0x03 + mapped) & 0xFF, 0xBB]`. -/
def send_rotation_frame (rotation_speed : Int) : List Nat :=
  let speed_value := max (-100) (min 100 rotation_speed)
  let mapped_value := (speed_value + 100).toNat
  [0xAA, 0x03, mapped_value, (0x03 + mapped_value) % 256, 0xBB]

/-! ## Target prioritization (`vision_core.py`) -/

/-- A detected ball as the tracker emits it: a dict with pixel center
coordinates and a color-class string. -/
structure Ball where
  x : Int
  y : Int
  color : String
  deriving DecidableEq, Repr

/-- One entry of `VisionCore.safety_zones`: an enabled flag, a type string
(only `"rectangle"` is handled), and pixel points (top-left and bottom-right
for a rectangle). -/
structure Zone where
  enabled : Bool
  ztype : String
  pixel_points : List (Int × Int)
  deriving DecidableEq, Repr

/-- The fields of `VisionCore` that the target-selection methods read:
team/enemy colors, the `ball_priorities` dict from the strategy config, the
`first_pick` flag, the `safety_zones` list, and the legacy single
`safety_zone` used only when `safety_zones` is empty. -/
structure VisionState where
  team_color : String
  enemy_color : String
  ball_priorities : List (String × Int)
  first_pick : Bool
  safety_zones : List Zone
  legacy_zone : Option Zone
  deriving DecidableEq, Repr

/-- Python `dict.get(key, default)` for the string-keyed priority dict. -/
def dictGet (d : List (String × Int)) (key : String) (dflt : Int) : Int :=
  match d.find? (fun p => p.1 == key) with
  | some p => p.2
  | none => dflt

/-- `self.enemy_color = 'blue' if self.team_color == 'red' else 'red'`
(`vision_core.py` line 43). -/
def derive_enemy_color (team_color : String) : String :=
  if team_color == "red" then "blue" else "red"

/-- `VisionCore.calculate_ball_priority` (lines 298–321): enemy-colored balls
are forced to 0; while `first_pick` is set, team-colored balls get 1000 and
every other color 0; afterwards the configured priority table applies, with
the team color read under the key `'team'` (default 100) and other colors
under their own name (default 0). -/
def calculate_ball_priority (s : VisionState) (ball : Ball) : Int :=
  if ball.color == s.enemy_color then 0
  else if s.first_pick then
    (if ball.color == s.team_color then 1000 else 0)
  else if ball.color == s.team_color then
    dictGet s.ball_priorities "team" 100
  else
    dictGet s.ball_priorities ball.color 0

/-- `VisionCore.check_yellow_ball_restriction` (lines 454–478): a yellow
target needs no yellow already held and an empty carry list; a non-yellow
target is blocked whenever a yellow ball is held. -/
def check_yellow_ball_restriction (balls : List Ball) (target_ball : Ball) : Bool :=
  let yellow_count := (balls.filter (fun b => b.color == "yellow")).length
  if target_ball.color == "yellow" then
    if 1 ≤ yellow_count then false
    else if 0 < balls.length then false
    else true
  else if balls.any (fun b => b.color == "yellow") then false
  else true

/-- `VisionCore.check_transfer_limit` (lines 395–414): yellow targets, or any
state already holding a yellow ball, bypass the count; otherwise a team-color
or black target is rejected once 4 team-color/black balls are held. -/
def check_transfer_limit (s : VisionState) (balls : List Ball) (target_ball : Ball) : Bool :=
  if target_ball.color == "yellow" || balls.any (fun b => b.color == "yellow") then
    true
  else
    let current_count :=
      (balls.filter (fun b => b.color == s.team_color || b.color == "black")).length
    if (target_ball.color == s.team_color || target_ball.color == "black")
        && 4 ≤ current_count then
      false
    else true

/-- The rectangle containment test of `is_ball_in_safety_zone`: the zone type
must be `"rectangle"` with at least two points, the first being the top-left
and the second the bottom-right corner (inclusive bounds). -/
def zone_contains (z : Zone) (px py : Int) : Bool :=
  if z.ztype == "rectangle" then
    match z.pixel_points with
    | tl :: br :: _ =>
      decide (tl.1 ≤ px) && decide (px ≤ br.1) && decide (tl.2 ≤ py) && decide (py ≤ br.2)
    | _ => false
  else false

/-- `VisionCore.is_ball_in_safety_zone` (lines 504–558): with a non-empty
`safety_zones` list the ball is in a zone iff some enabled zone with points
contains its center; with an empty list the legacy single `safety_zone` is
consulted when enabled. -/
def is_ball_in_safety_zone (s : VisionState) (ball : Ball) : Bool :=
  if s.safety_zones.isEmpty then
    match s.legacy_zone with
    | some z => if z.enabled then zone_contains z ball.x ball.y else false
    | none => false
  else
    s.safety_zones.any (fun z =>
      z.enabled && !z.pixel_points.isEmpty && zone_contains z ball.x ball.y)

/-- Insertion step of the stable descending sort: the new element is placed
before the first element whose priority does not exceed its own, so elements
appearing earlier in the input stay first among equal priorities — the
semantics of Python's stable `sorted(..., reverse=True)`. -/
def insert_desc (x : Ball × Int) : List (Ball × Int) → List (Ball × Int)
  | [] => [x]
  | y :: ys => if y.2 ≤ x.2 then x :: y :: ys else y :: insert_desc x ys

/-- Stable sort by priority, descending — the model of
`sorted(balls, key=lambda x: x['priority'], reverse=True)`. -/
def sort_desc : List (Ball × Int) → List (Ball × Int)
  | [] => []
  | x :: xs => insert_desc x (sort_desc xs)

/-- `VisionCore.get_prioritized_balls` (lines 323–336): attach each ball's
computed priority and sort descending (stably). -/
def get_prioritized_balls (s : VisionState) (balls : List Ball) : List (Ball × Int) :=
  sort_desc (balls.map (fun b => (b, calculate_ball_priority s b)))

/-- The candidate loop of `get_best_target` (lines 363–386): skip candidates
with non-positive priority, skip those failing the yellow-ball restriction or
the transfer limit, and return the first survivor. -/
def select_candidate (s : VisionState) (current_balls : List Ball) :
    List (Ball × Int) → Option Ball
  | [] => none
  | (b, p) :: rest =>
    if p ≤ 0 then select_candidate s current_balls rest
    else if check_yellow_ball_restriction current_balls b then
      (if check_transfer_limit s current_balls b then some b
       else select_candidate s current_balls rest)
    else select_candidate s current_balls rest

/-- `VisionCore.get_best_target` (lines 338–386): drop balls inside a safety
zone, order the rest by priority, and return the first candidate passing the
yellow-ball restriction and the transfer limit with positive priority. -/
def get_best_target (s : VisionState) (balls current_balls : List Ball) : Option Ball :=
  if balls.isEmpty then none
  else if (balls.filter (fun b => !(is_ball_in_safety_zone s b))).isEmpty then none
  else
    select_candidate s current_balls
      (get_prioritized_balls s (balls.filter (fun b => !(is_ball_in_safety_zone s b))))

/-- `VisionCore.set_first_pick_done` (lines 388–393): the only writer of the
`first_pick` flag after initialization; it always clears the flag. -/
def set_first_pick_done (s : VisionState) : VisionState :=
  { s with first_pick := false }

/-! ## Color detector error handling (`color_detector.py`) -/

/-- A camera frame with its pixel dimensions; `size = 0` models an empty
ndarray.  A Python `None` frame is modelled as `Option.none` at call sites. -/
structure Image where
  height : Nat
  width : Nat
  deriving DecidableEq, Repr

/-- `ColorDetector.detect_color` (lines 246–300), with the OpenCV masking
pipeline (threshold, morphology) abstracted as the parameter `pipeline`
because the claim concerns only the guard logic; `pipeline img = none` models
an internal exception swallowed by the method's `try/except`.  The guards, in
source order: a `None`/empty image returns `None` (`Except.ok none`); an empty
color name returns `None`; a color name absent from the loaded thresholds
raises `ValueError` (`Except.error`); otherwise the pipeline result is
returned. -/
def detect_color (pipeline : Image → Option (List (List Nat)))
    (configured_colors : List String) (image : Option Image) (color_name : String) :
    Except String (Option (List (List Nat))) :=
  match image with
  | none => Except.ok none
  | some img =>
    if img.height * img.width == 0 then Except.ok none
    else if color_name == "" then Except.ok none
    else if configured_colors.contains color_name then Except.ok (pipeline img)
    else Except.error ("unsupported color: " ++ color_name)

/-! ## Concrete states for counterexamples and failing inputs -/

/-- A synthetic fence excluded area (an axis-aligned region of the frame).
The repository's fence detection (`detect_purple_fence`, exercised by
`text/test_purple_fence.py`) is absent from the source, and `get_best_target`
takes no fence input at all; this concrete region only serves to exhibit a
selected target whose center lies inside a fence area. -/
def sample_fence_excluded (px py : Int) : Bool :=
  decide (200 ≤ px) && decide (px ≤ 400) && decide (200 ≤ py) && decide (py ≤ 300)

/-- A red-team state with no safety zones configured. -/
def fence_state : VisionState :=
  { team_color := "red", enemy_color := "blue", ball_priorities := [],
    first_pick := true, safety_zones := [], legacy_zone := none }

/-- A red-team state with one enabled rectangular safety zone covering
`[100, 200] × [100, 200]`. -/
def zone_state_red : VisionState :=
  { team_color := "red", enemy_color := "blue", ball_priorities := [],
    first_pick := true,
    safety_zones := [{ enabled := true, ztype := "rectangle",
                       pixel_points := [(100, 100), (200, 200)] }],
    legacy_zone := none }

/-- The same zone configuration for the blue team. -/
def zone_state_blue : VisionState :=
  { team_color := "blue", enemy_color := "red", ball_priorities := [],
    first_pick := true,
    safety_zones := [{ enabled := true, ztype := "rectangle",
                       pixel_points := [(100, 100), (200, 200)] }],
    legacy_zone := none }

/-! ## Helper lemmas -/

/-- Saturation (not wrapping): a value already in the signed 16-bit range is
left unchanged by the clamp. -/
lemma clampI16_of_mem (v : Int) (h1 : -32768 ≤ v) (h2 : v ≤ 32767) : clampI16 v = v := by
  unfold clampI16
  omega

/-- The clamp lands in the signed 16-bit range. -/
lemma clampI16_mem (v : Int) : -32768 ≤ clampI16 v ∧ clampI16 v ≤ 32767 := by
  unfold clampI16
  omega

/-- A value already in the unsigned 16-bit range is unchanged by the clamp. -/
lemma clampU16_of_mem (v : Int) (h1 : 0 ≤ v) (h2 : v ≤ 65535) : clampU16 v = v := by
  unfold clampU16
  omega

/-- The clamp lands in the unsigned 16-bit range. -/
lemma clampU16_mem (v : Int) : 0 ≤ clampU16 v ∧ clampU16 v ≤ 65535 := by
  unfold clampU16
  omega

/-- A buffer shorter than the minimum frame length never decodes. -/
lemma receive_decode_of_short (data : List Nat) (h : data.length < 6) :
    receive_decode data = none := by
  unfold receive_decode
  rw [if_neg]
  rintro ⟨h6, -, -⟩
  omega

/-- Decoding a buffer whose last two bytes are a checksum byte and the end
byte `0xBB`: the frame is accepted exactly when the first byte is `0xAA` and
the sum of the interior bytes modulo 256 equals the checksum byte. -/
lemma receive_decode_frame (front : List Nat) (chk : Nat) (h : 4 ≤ front.length) :
    receive_decode (front ++ [chk, 0xBB]) =
      if front.head? = some 0xAA ∧ (front.drop 1).sum % 256 = chk then
        some (front.getD 1 0, front.drop 2)
      else none := by
  have hne : front ≠ [] := List.ne_nil_of_length_pos (by omega)
  have hlen : (front ++ [chk, 0xBB]).length = front.length + 2 := by simp
  have hhead : (front ++ [chk, 0xBB]).head? = front.head? := by
    cases front with
    | nil => exact absurd rfl hne
    | cons a t => rfl
  have hlast : (front ++ [chk, 0xBB]).getLast? = some 0xBB := by
    have heq : front ++ [chk, 0xBB] = (front ++ [chk]) ++ [0xBB] := by simp
    rw [heq, List.getLast?_concat]
  have hchk : (front ++ [chk, 0xBB]).getD ((front ++ [chk, 0xBB]).length - 2) 0 = chk := by
    rw [hlen]
    have h2 : front.length + 2 - 2 = front.length := by omega
    rw [h2]
    simp [List.getD, List.getElem?_append_right (le_refl front.length)]
  have hparams : ((front ++ [chk, 0xBB]).drop 2).take ((front ++ [chk, 0xBB]).length - 4)
      = front.drop 2 := by
    rw [hlen, List.drop_append_eq_append_drop]
    have h2 : 2 - front.length = 0 := by omega
    rw [h2, List.drop_zero]
    have h4 : front.length + 2 - 4 = (front.drop 2).length := by
      simp only [List.length_drop]
      omega
    rw [h4, List.take_left]
  have hsum : ((front ++ [chk, 0xBB]).drop 1).take ((front ++ [chk, 0xBB]).length - 3)
      = front.drop 1 := by
    rw [hlen, List.drop_append_eq_append_drop]
    have h1 : 1 - front.length = 0 := by omega
    rw [h1, List.drop_zero]
    have h3 : front.length + 2 - 3 = (front.drop 1).length := by
      simp only [List.length_drop]
      omega
    rw [h3, List.take_left]
  have hcmd : (front ++ [chk, 0xBB]).getD 1 0 = front.getD 1 0 := by
    have h1 : 1 < front.length := by omega
    simp [List.getD, List.getElem?_append_left h1]
  have hcond : (6 ≤ (front ++ [chk, 0xBB]).length
      ∧ (front ++ [chk, 0xBB]).head? = some 0xAA
      ∧ (front ++ [chk, 0xBB]).getLast? = some 0xBB) ↔ front.head? = some 0xAA := by
    rw [hhead, hlast, hlen]
    constructor
    · rintro ⟨-, h2, -⟩
      exact h2
    · intro h2
      exact ⟨by omega, h2, rfl⟩
  unfold receive_decode
  by_cases hh : front.head? = some 0xAA
  · rw [if_pos (hcond.mpr hh)]
    rw [hsum, hchk, hparams, hcmd]
    by_cases hs : (front.drop 1).sum % 256 = chk
    · rw [if_pos hs, if_pos ⟨hh, hs⟩]
    · rw [if_neg hs, if_neg (fun hc => hs hc.2)]
  · rw [if_neg (fun hc => hh (hcond.mp hc)), if_neg (fun hc => hh hc.1)]

/-- Flipping any single bit changes a natural number. -/
lemma xor_pow_ne (n k : Nat) : n ^^^ 2 ^ k ≠ n := by
  intro h
  have h2 : n ^^^ (n ^^^ 2 ^ k) = n ^^^ n := congrArg (fun x => n ^^^ x) h
  rw [← Nat.xor_assoc, Nat.xor_self, Nat.zero_xor] at h2
  exact absurd h2 (Nat.pos_iff_ne_zero.mp (Nat.pos_pow_of_pos k (by omega)))

/-- Membership in the insertion step. -/
lemma mem_insert_desc {x y : Ball × Int} {l : List (Ball × Int)} :
    x ∈ insert_desc y l ↔ x = y ∨ x ∈ l := by
  induction l with
  | nil => simp [insert_desc]
  | cons z zs ih =>
    unfold insert_desc
    by_cases h : z.2 ≤ y.2
    · simp [h]
    · simp only [h, if_false, List.mem_cons, ih]
      tauto

/-- The stable descending sort is a permutation at the level of membership. -/
lemma mem_sort_desc {x : Ball × Int} {l : List (Ball × Int)} :
    x ∈ sort_desc l ↔ x ∈ l := by
  induction l with
  | nil => simp [sort_desc]
  | cons z zs ih =>
    simp [sort_desc, mem_insert_desc, ih]

/-- If every candidate fails the yellow-ball restriction, the candidate loop
returns nothing. -/
lemma select_candidate_none_of_yellow {s : VisionState} {cur : List Ball}
    {l : List (Ball × Int)}
    (h : ∀ bp ∈ l, check_yellow_ball_restriction cur bp.1 = false) :
    select_candidate s cur l = none := by
  induction l with
  | nil => rfl
  | cons x xs ih =>
    obtain ⟨xb, xp⟩ := x
    have hx : check_yellow_ball_restriction cur xb = false := h (xb, xp) (by simp)
    have hrest : ∀ bp ∈ xs, check_yellow_ball_restriction cur bp.1 = false :=
      fun bp hbp => h bp (List.mem_cons_of_mem _ hbp)
    simp only [select_candidate, hx]
    split
    · exact ih hrest
    · simp [ih hrest]

/-- A ball returned by the candidate loop appears in the candidate list with
a positive priority and passes both rule checks. -/
lemma select_candidate_eq_some {s : VisionState} {cur : List Ball}
    {l : List (Ball × Int)} {b : Ball}
    (h : select_candidate s cur l = some b) :
    ∃ p : Int, (b, p) ∈ l ∧ 0 < p ∧
      check_yellow_ball_restriction cur b = true ∧
      check_transfer_limit s cur b = true := by
  induction l with
  | nil => simp [select_candidate] at h
  | cons x xs ih =>
    obtain ⟨xb, xp⟩ := x
    simp only [select_candidate] at h
    split_ifs at h with h1 h2 h3
    · obtain ⟨p, hp1, hp2, hp3, hp4⟩ := ih h
      exact ⟨p, List.mem_cons_of_mem _ hp1, hp2, hp3, hp4⟩
    · obtain ⟨heq⟩ := h
      exact ⟨xp, List.mem_cons_self _ _, by omega, h2, h3⟩
    · obtain ⟨p, hp1, hp2, hp3, hp4⟩ := ih h
      exact ⟨p, List.mem_cons_of_mem _ hp1, hp2, hp3, hp4⟩
    · obtain ⟨p, hp1, hp2, hp3, hp4⟩ := ih h
      exact ⟨p, List.mem_cons_of_mem _ hp1, hp2, hp3, hp4⟩

/-- A selected best target came from the input list, lies outside every
safety zone, has positive computed priority, and passes both rule checks. -/
lemma get_best_target_eq_some {s : VisionState} {balls cur : List Ball} {b : Ball}
    (h : get_best_target s balls cur = some b) :
    b ∈ balls ∧ is_ball_in_safety_zone s b = false ∧
      0 < calculate_ball_priority s b ∧
      check_yellow_ball_restriction cur b = true ∧
      check_transfer_limit s cur b = true := by
  unfold get_best_target at h
  split_ifs at h
  obtain ⟨p, hmem, hp, hy, ht⟩ := select_candidate_eq_some h
  have hmem2 : (b, p) ∈ (balls.filter (fun bb => !(is_ball_in_safety_zone s bb))).map
      (fun bb => (bb, calculate_ball_priority s bb)) := by
    have := (mem_sort_desc).mp hmem
    simpa [get_prioritized_balls] using (mem_sort_desc).mp hmem
  simp only [List.mem_map] at hmem2
  obtain ⟨a, ha, heq⟩ := hmem2
  have hab : a = b := congrArg Prod.fst heq
  have hap : calculate_ball_priority s a = p := congrArg Prod.snd heq
  subst hab
  have hfil := List.mem_filter.mp ha
  refine ⟨hfil.1, ?_, ?_, hy, ht⟩
  · have := hfil.2
    simpa using this
  · omega

/-- If every candidate fails the yellow restriction, selection returns none. -/
lemma get_best_target_none_of_yellow {s : VisionState} {balls cur : List Ball}
    (h : ∀ t : Ball, check_yellow_ball_restriction cur t = false) :
    get_best_target s balls cur = none := by
  unfold get_best_target
  split_ifs
  · rfl
  · rfl
  · exact select_candidate_none_of_yellow (fun bp _ => h bp.1)

/-- The derived enemy color never equals the team color
(`'blue' if team == 'red' else 'red'`). -/
lemma derive_enemy_ne (tc : String) : derive_enemy_color tc ≠ tc := by
  unfold derive_enemy_color
  by_cases h : tc = "red"
  · subst h
    simp
  · simp only [beq_iff_eq, h, if_false]
    exact fun he => h he.symm

/-! ## Claim theorems: wire protocol -/

/-- C1 (counterexample): at `(dx, dy, color, distance) = (1, 2, red, 3)` the
frame actually written by `send_ball_data` is
`[0xAA, 1, 0, 2, 0, 0, 0x00, 3, 0, 0xBB]` — a reserved `0x00` byte follows
the class id and no checksum byte exists — while the claimed frame
`[0xAA, dx_le16, dy_le16, classId, distance_le16, checksum, 0xBB]` would be
`[0xAA, 1, 0, 2, 0, 0, 3, 0, 6, 0xBB]`; the two differ. -/
theorem send_ball_frame_no_checksum_cex :
    send_ball_data_packet 1 2 "red" 3 = some [0xAA, 1, 0, 2, 0, 0, 0x00, 3, 0, 0xBB] ∧
    encodeTarget_spec 1 2 "red" 3 = some [0xAA, 1, 0, 2, 0, 0, 3, 0, 6, 0xBB] ∧
    send_ball_data_packet 1 2 "red" 3 ≠ encodeTarget_spec 1 2 "red" 3 := by
  refine ⟨by decide, by decide, by decide⟩

/-- C1 (amended): for every valid ball color, the frame written to the link is
`[0xAA, dx as little-endian i16, dy as little-endian i16, classId, 0x00
(reserved), distance as little-endian u16, 0xBB]` — 10 bytes, with a constant
reserved byte where the spec places the checksum, and no checksum byte at
all. -/
theorem send_ball_frame_layout (dx dy distance : Int) (c : String) (idv : Nat)
    (h : color_to_id c = some idv) :
    send_ball_data_packet dx dy c distance =
      some ([0xAA] ++ toLeI16 (clampI16 dx) ++ toLeI16 (clampI16 dy)
        ++ [idv, 0x00] ++ toLeU16 (clampU16 distance) ++ [0xBB]) ∧
    ∀ pkt : List Nat, send_ball_data_packet dx dy c distance = some pkt →
      pkt.length = 10 ∧ pkt.getD 0 0 = 0xAA ∧ pkt.getD 5 0 = idv ∧
      pkt.getD 6 1 = 0x00 ∧ pkt.getD 9 0 = 0xBB := by
  have hmain : send_ball_data_packet dx dy c distance =
      some ([0xAA] ++ toLeI16 (clampI16 dx) ++ toLeI16 (clampI16 dy)
        ++ [idv, 0x00] ++ toLeU16 (clampU16 distance) ++ [0xBB]) := by
    unfold send_ball_data_packet
    rw [h]
  refine ⟨hmain, ?_⟩
  intro pkt hpkt
  rw [hmain] at hpkt
  injection hpkt with hpkt
  subst hpkt
  exact ⟨rfl, rfl, rfl, rfl, rfl⟩

/-- C1 (witness for the amended layout theorem), at a concrete valid color. -/
theorem send_ball_frame_layout_witness :
    send_ball_data_packet 7 (-7) "yellow" 500 =
      some ([0xAA] ++ toLeI16 (clampI16 7) ++ toLeI16 (clampI16 (-7))
        ++ [2, 0x00] ++ toLeU16 (clampU16 500) ++ [0xBB]) :=
  (send_ball_frame_layout 7 (-7) 500 "yellow" 2 rfl).1

/-- C8: feedback decoding returns `none` when the buffer is shorter than the
minimum frame length, when the start byte is not `0xAA` at index 0, when the
end byte is not `0xBB`, or when the interior checksum does not match; when it
does return a value, it is exactly the command-type byte and the interior
parameter bytes; and for any accepted framed buffer, flipping any single bit
of the checksum byte makes decoding reject. -/
theorem receive_decode_rejects_corrupt :
    (∀ data : List Nat, data.length < 6 → receive_decode data = none) ∧
    (∀ data : List Nat, data.head? ≠ some 0xAA → receive_decode data = none) ∧
    (∀ data : List Nat, data.getLast? ≠ some 0xBB → receive_decode data = none) ∧
    (∀ data : List Nat,
      ((data.drop 1).take (data.length - 3)).sum % 256 ≠ data.getD (data.length - 2) 0 →
      receive_decode data = none) ∧
    (∀ (data : List Nat) (ct : Nat) (ps : List Nat),
      receive_decode data = some (ct, ps) →
      ct = data.getD 1 0 ∧ ps = (data.drop 2).take (data.length - 4)) ∧
    (∀ (front : List Nat) (chk k : Nat) (r : Nat × List Nat), 4 ≤ front.length → k < 8 →
      receive_decode (front ++ [chk, 0xBB]) = some r →
      receive_decode (front ++ [chk ^^^ 2 ^ k, 0xBB]) = none) := by
  refine ⟨receive_decode_of_short, ?_, ?_, ?_, ?_, ?_⟩
  · intro data h
    unfold receive_decode
    rw [if_neg (fun hc => h hc.2.1)]
  · intro data h
    unfold receive_decode
    rw [if_neg (fun hc => h hc.2.2)]
  · intro data h
    unfold receive_decode
    by_cases h1 : 6 ≤ data.length ∧ data.head? = some 0xAA ∧ data.getLast? = some 0xBB
    · rw [if_pos h1, if_neg h]
    · rw [if_neg h1]
  · intro data ct ps h
    unfold receive_decode at h
    split_ifs at h
    injection h with h
    exact ⟨(congrArg Prod.fst h).symm, (congrArg Prod.snd h).symm⟩
  · intro front chk k r h4 hk hacc
    rw [receive_decode_frame front chk h4] at hacc
    split_ifs at hacc with hc
    · rw [receive_decode_frame front _ h4, if_neg]
      rintro ⟨-, hs⟩
      have hx : chk ^^^ 2 ^ k = chk := by rw [← hs, hc.2]
      exact xor_pow_ne chk k hx

/-- C8 (witness): a 3-byte buffer is rejected. -/
theorem receive_decode_rejects_corrupt_witness :
    receive_decode [1, 2, 3] = none :=
  receive_decode_rejects_corrupt.1 [1, 2, 3] (by decide)

/-- C9: encoding saturates rather than wraps — the clamp lands in the signed
16-bit range, the frame depends only on the clamped values, and the concrete
input `(40000, -40000, cls, 100000)` emits `dx = 32767` (bytes `FF 7F`),
`dy = -32768` (bytes `00 80`) and `distance = 65535` (bytes `FF FF`). -/
theorem encode_saturates_not_wraps :
    (∀ v : Int, -32768 ≤ clampI16 v ∧ clampI16 v ≤ 32767) ∧
    (∀ v : Int, 0 ≤ clampU16 v ∧ clampU16 v ≤ 65535) ∧
    (∀ (dx dy distance : Int) (c : String),
      send_ball_data_packet dx dy c distance
        = send_ball_data_packet (clampI16 dx) (clampI16 dy) c (clampU16 distance)) ∧
    (∀ (c : String) (idv : Nat), color_to_id c = some idv →
      send_ball_data_packet 40000 (-40000) c 100000 =
        some [0xAA, 0xFF, 0x7F, 0x00, 0x80, idv, 0x00, 0xFF, 0xFF, 0xBB]) := by
  refine ⟨clampI16_mem, clampU16_mem, ?_, ?_⟩
  · intro dx dy distance c
    unfold send_ball_data_packet
    cases hc : color_to_id c with
    | none => rfl
    | some idv =>
      rw [clampI16_of_mem (clampI16 dx) (clampI16_mem dx).1 (clampI16_mem dx).2,
        clampI16_of_mem (clampI16 dy) (clampI16_mem dy).1 (clampI16_mem dy).2,
        clampU16_of_mem (clampU16 distance) (clampU16_mem distance).1 (clampU16_mem distance).2]
  · intro c idv h
    unfold send_ball_data_packet
    rw [h]
    rfl

/-- C9 (witness): the clamping example at the concrete color red. -/
theorem encode_saturates_not_wraps_witness :
    send_ball_data_packet 40000 (-40000) "red" 100000 =
      some [0xAA, 0xFF, 0x7F, 0x00, 0x80, 0, 0x00, 0xFF, 0xFF, 0xBB] :=
  encode_saturates_not_wraps.2.2.2 "red" 0 rfl

/-- C10: every 5-byte command frame this module constructs (grasp, place,
rotate) is shorter than the decoder's 6-byte minimum, so fed back verbatim it
always decodes to `none`. -/
theorem command_frames_not_decodable :
    (∀ g : Bool, receive_decode (send_grab_command_frame g) = none) ∧
    (∀ (position : Option Int) (fr : List Nat),
      send_place_command_frame position = some fr → receive_decode fr = none) ∧
    (∀ speed : Int, receive_decode (send_rotation_frame speed) = none) := by
  refine ⟨?_, ?_, ?_⟩
  · intro g
    apply receive_decode_of_short
    have hl : (send_grab_command_frame g).length = 5 := rfl
    omega
  · intro position fr h
    apply receive_decode_of_short
    unfold send_place_command_frame at h
    split_ifs at h
    injection h with h
    subst h
    have hl : ([0xAA, 0x02, (position.getD 0).toNat,
        (0x02 + (position.getD 0).toNat) % 256, 0xBB] : List Nat).length = 5 := rfl
    omega
  · intro speed
    apply receive_decode_of_short
    have hl : (send_rotation_frame speed).length = 5 := rfl
    omega

/-- C10 (witness): the place frame at position 2 is not decodable. -/
theorem command_frames_not_decodable_witness :
    receive_decode [0xAA, 0x02, 2, 4, 0xBB] = none :=
  command_frames_not_decodable.2.1 (some 2) [0xAA, 0x02, 2, 4, 0xBB] (by decide)

/-! ## Claim theorems: target prioritization -/

/-- C2: whenever the held-object list contains a hazard-class (yellow) ball,
every candidate of every color fails the yellow-ball restriction, so
`get_best_target` returns `none` regardless of the candidates and their
scores. -/
theorem hazard_held_blocks_selection (s : VisionState) (balls current_balls : List Ball)
    (h : ∃ b ∈ current_balls, b.color = "yellow") :
    (∀ t : Ball, check_yellow_ball_restriction current_balls t = false) ∧
    get_best_target s balls current_balls = none := by
  obtain ⟨yb, hmem, hyc⟩ := h
  have hany : current_balls.any (fun b => b.color == "yellow") = true := by
    rw [List.any_eq_true]
    exact ⟨yb, hmem, by simp [hyc]⟩
  have hcount : 1 ≤ (current_balls.filter (fun b => b.color == "yellow")).length := by
    have hm : yb ∈ current_balls.filter (fun b => b.color == "yellow") :=
      List.mem_filter.mpr ⟨hmem, by simp [hyc]⟩
    exact List.length_pos.mpr (List.ne_nil_of_mem hm)
  have hall : ∀ t : Ball, check_yellow_ball_restriction current_balls t = false := by
    intro t
    unfold check_yellow_ball_restriction
    by_cases ht : t.color = "yellow"
    · simp [ht, hcount]
    · simp [beq_iff_eq, ht, hany]
  exact ⟨hall, get_best_target_none_of_yellow hall⟩

/-- C2 (witness): holding one yellow ball blocks a red candidate. -/
theorem hazard_held_blocks_selection_witness :
    get_best_target fence_state [⟨5, 5, "red"⟩] [⟨0, 0, "yellow"⟩] = none :=
  (hazard_held_blocks_selection fence_state [⟨5, 5, "red"⟩] [⟨0, 0, "yellow"⟩]
    ⟨⟨0, 0, "yellow"⟩, by simp, rfl⟩).2

/-- C3: while the first-pick flag is pending, every candidate not of the team
color scores 0 and team-color candidates score 1000, so only a team-color
ball can be returned by `get_best_target`; `set_first_pick_done` — the only
writer of the flag — always clears it (one-way), and once cleared the score
comes from the configured priority table (team color under the key `'team'`,
enemy color forced to 0). -/
theorem first_pick_latch (s : VisionState)
    (henemy : s.enemy_color = derive_enemy_color s.team_color) :
    (s.first_pick = true →
      (∀ b : Ball, b.color ≠ s.team_color → calculate_ball_priority s b = 0) ∧
      (∀ b : Ball, b.color = s.team_color → calculate_ball_priority s b = 1000) ∧
      (∀ (balls current_balls : List Ball) (b : Ball),
        get_best_target s balls current_balls = some b → b.color = s.team_color)) ∧
    ((set_first_pick_done s).first_pick = false) ∧
    (∀ s2 : VisionState, (set_first_pick_done s2).first_pick = false) ∧
    (s.first_pick = false → ∀ b : Ball,
      calculate_ball_priority s b =
        if b.color = s.enemy_color then 0
        else if b.color = s.team_color then dictGet s.ball_priorities "team" 100
        else dictGet s.ball_priorities b.color 0) := by
  have hne : s.enemy_color ≠ s.team_color := by
    rw [henemy]
    exact derive_enemy_ne _
  refine ⟨?_, rfl, fun s2 => rfl, ?_⟩
  · intro hfp
    have hz : ∀ b : Ball, b.color ≠ s.team_color → calculate_ball_priority s b = 0 := by
      intro b hb
      unfold calculate_ball_priority
      by_cases he : b.color = s.enemy_color
      · simp [he]
      · simp [beq_iff_eq, he, hfp, hb]
    have hteam : ∀ b : Ball, b.color = s.team_color → calculate_ball_priority s b = 1000 := by
      intro b hb
      have he : b.color ≠ s.enemy_color := by
        rw [hb]
        exact fun h2 => hne h2.symm
      unfold calculate_ball_priority
      simp [beq_iff_eq, he, hfp, hb]
      exact fun h2 => hne h2.symm
    refine ⟨hz, hteam, ?_⟩
    intro balls current_balls b hb
    have h3 := (get_best_target_eq_some hb).2.2.1
    by_contra hc
    rw [hz b hc] at h3
    omega
  · intro hfp b
    by_cases he : b.color = s.enemy_color
    · simp [calculate_ball_priority, he]
    · by_cases htc : b.color = s.team_color
      · simp [calculate_ball_priority, beq_iff_eq, he, htc, hfp]
      · simp [calculate_ball_priority, beq_iff_eq, he, htc, hfp]

/-- C3 (witness): in the pending state a team-color ball scores 1000. -/
theorem first_pick_latch_witness :
    calculate_ball_priority fence_state ⟨0, 0, "red"⟩ = 1000 :=
  ((first_pick_latch fence_state rfl).1 rfl).2.1 ⟨0, 0, "red"⟩ rfl

/-- C4: with 4 team-color/black balls held and no hazard ball held, a 5th
team-color or black candidate fails `check_transfer_limit` (and therefore is
never the selected target), while a hazard-class (yellow) candidate in the
same state is exempt from the count — the transfer check passes it and its
fate rests on the singleton rule alone. -/
theorem transfer_cap_team_core (s : VisionState) (current_balls : List Ball)
    (t5 thaz : Ball)
    (hteam : s.team_color = "red" ∨ s.team_color = "blue")
    (hnoy : ∀ b ∈ current_balls, b.color ≠ "yellow")
    (hcount : 4 ≤ (current_balls.filter
        (fun b => b.color == s.team_color || b.color == "black")).length)
    (ht5 : t5.color = s.team_color ∨ t5.color = "black")
    (hhaz : thaz.color = "yellow") :
    check_transfer_limit s current_balls t5 = false ∧
    check_transfer_limit s current_balls thaz = true ∧
    (∀ balls : List Ball, get_best_target s balls current_balls ≠ some t5) := by
  have hany : current_balls.any (fun b => b.color == "yellow") = false := by
    rw [← Bool.not_eq_true, List.any_eq_true]
    rintro ⟨x, hx, hxy⟩
    exact hnoy x hx (by simpa using hxy)
  have ht5y : t5.color ≠ "yellow" := by
    rcases ht5 with h | h
    · rcases hteam with h2 | h2 <;> rw [h, h2] <;> decide
    · rw [h]
      decide
  have hteamy : s.team_color ≠ "yellow" := by
    rcases hteam with h2 | h2 <;> rw [h2] <;> decide
  have h1 : check_transfer_limit s current_balls t5 = false := by
    unfold check_transfer_limit
    rcases ht5 with h | h <;>
      simp [beq_iff_eq, ht5y, hany, h, hcount, hteamy]
  have h2 : check_transfer_limit s current_balls thaz = true := by
    unfold check_transfer_limit
    simp [hhaz]
  refine ⟨h1, h2, ?_⟩
  intro balls hc
  have ht := (get_best_target_eq_some hc).2.2.2.2
  rw [h1] at ht
  exact Bool.false_ne_true ht

/-- C4 (witness): four held red/black balls block a 5th red candidate. -/
theorem transfer_cap_team_core_witness :
    check_transfer_limit fence_state
      [⟨0, 0, "red"⟩, ⟨1, 0, "red"⟩, ⟨2, 0, "red"⟩, ⟨3, 0, "black"⟩] ⟨9, 9, "red"⟩ = false :=
  (transfer_cap_team_core fence_state
    [⟨0, 0, "red"⟩, ⟨1, 0, "red"⟩, ⟨2, 0, "red"⟩, ⟨3, 0, "black"⟩]
    ⟨9, 9, "red"⟩ ⟨8, 8, "yellow"⟩ (Or.inl rfl) (by decide) (by decide)
    (Or.inl rfl) rfl).1

/-- C5 (failing input): a lone team-color candidate whose center `(300, 250)`
lies inside a fence excluded area is nevertheless returned as the best
target — `get_best_target` takes no fence input and performs no fence test,
and the fence-filtering methods the repository's own tests call
(`detect_purple_fence`) do not exist in the source. -/
theorem fence_interior_target_selected :
    sample_fence_excluded 300 250 = true ∧
    get_best_target fence_state [⟨300, 250, "red"⟩] [] = some ⟨300, 250, "red"⟩ :=
  ⟨by decide, by decide⟩

/-- C7 (counterexample): the safety-zone discard consults only geometry — the
code's zones carry no owner color at all.  With one enabled rectangle zone,
balls of every color at `(150, 150)` are inside it, and both a red ball under
a red team and a blue ball under a blue team are discarded (selection returns
`none`); a single zone cannot be the matching destination of all of them, so
discarding cannot be conditioned on an owner match. -/
theorem zone_discard_ignores_owner_cex :
    is_ball_in_safety_zone zone_state_red ⟨150, 150, "red"⟩ = true ∧
    is_ball_in_safety_zone zone_state_red ⟨150, 150, "blue"⟩ = true ∧
    is_ball_in_safety_zone zone_state_red ⟨150, 150, "yellow"⟩ = true ∧
    get_best_target zone_state_red [⟨150, 150, "red"⟩] [] = none ∧
    get_best_target zone_state_blue [⟨150, 150, "blue"⟩] [] = none := by
  refine ⟨by decide, by decide, by decide, by decide, by decide⟩

/-- C7 (amended): an object inside any enabled safety zone is discarded
purely by the position of its center — the zone-membership test is
independent of the object's color (hence of any notion of destination or
owner), and a returned target is never inside a zone. -/
theorem zone_discard_geometric (s : VisionState) (balls current_balls : List Ball)
    (b : Ball) :
    (∀ c : String, is_ball_in_safety_zone s { b with color := c }
        = is_ball_in_safety_zone s b) ∧
    (get_best_target s balls current_balls = some b → is_ball_in_safety_zone s b = false) := by
  constructor
  · intro c
    rfl
  · intro h
    exact (get_best_target_eq_some h).2.1

/-- C7 (witness): a selected target outside every zone. -/
theorem zone_discard_geometric_witness :
    is_ball_in_safety_zone fence_state ⟨300, 250, "red"⟩ = false :=
  (zone_discard_geometric fence_state [⟨300, 250, "red"⟩] [] ⟨300, 250, "red"⟩).2 (by decide)

/-! ## Claim theorems: color detector error handling -/

/-- C6 (counterexample): querying a color class with no configured threshold
on a perfectly valid frame raises `ValueError` (the error escapes
`detect_color`); it does not yield an empty mask.  An empty frame yields
Python `None` — not a mask — though indeed without raising. -/
theorem detect_color_unconfigured_raises_cex :
    detect_color (fun _ => some []) ["red", "blue", "yellow", "black"]
      (some ⟨480, 640⟩) "green" = Except.error "unsupported color: green" ∧
    detect_color (fun _ => some []) ["red", "blue", "yellow", "black"]
      (some ⟨0, 0⟩) "red" = Except.ok none := by
  exact ⟨rfl, rfl⟩

/-- C6 (amended): a `None` or empty frame yields `None` without raising; a
non-empty, unconfigured color name on a valid frame raises a `ValueError`
that escapes the method; a configured color name reaches the masking
pipeline, whose internal exceptions are recovered as `None`. -/
theorem detect_color_guard_behavior (pipeline : Image → Option (List (List Nat)))
    (cfg : List String) (image : Option Image) (color_name : String) :
    (image = none → detect_color pipeline cfg image color_name = Except.ok none) ∧
    (∀ img : Image, image = some img → img.height * img.width = 0 →
      detect_color pipeline cfg image color_name = Except.ok none) ∧
    (∀ img : Image, image = some img → img.height * img.width ≠ 0 → color_name ≠ "" →
      cfg.contains color_name = false →
      detect_color pipeline cfg image color_name
        = Except.error ("unsupported color: " ++ color_name)) ∧
    (∀ img : Image, image = some img → img.height * img.width ≠ 0 → color_name ≠ "" →
      cfg.contains color_name = true →
      detect_color pipeline cfg image color_name = Except.ok (pipeline img)) := by
  refine ⟨?_, ?_, ?_, ?_⟩
  · rintro rfl
    rfl
  · rintro img rfl hz
    simp [detect_color, hz]
  · rintro img rfl hz hcn hcf
    have hm : color_name ∉ cfg := by simpa using hcf
    simp [detect_color, beq_iff_eq, hz, hcn, hm]
  · rintro img rfl hz hcn hcf
    have hm : color_name ∈ cfg := by simpa using hcf
    simp [detect_color, beq_iff_eq, hz, hcn, hm]

/-- C6 (witness): the unconfigured-color branch at a concrete input. -/
theorem detect_color_guard_behavior_witness :
    detect_color (fun _ => some []) ["red"] (some ⟨480, 640⟩) "green"
      = Except.error "unsupported color: green" :=
  (detect_color_guard_behavior (fun _ => some []) ["red"] (some ⟨480, 640⟩) "green").2.2.1
    ⟨480, 640⟩ rfl (by decide) (by decide) (by decide)

end RescueVision
